import Mathlib

/-!
Shallow embedding of the Northern Lights aurora tracker (Python) in Lean 4.

The embedding models the parts of the program the verified claims are about:
  * `utils/config.py`: `validate_email`, `validate_config`, `load_config`,
    `save_config`;
  * `utils/cli_commands.py`: the `check` command (location/email extraction,
    threshold mapping, per-location KP evaluation, notification sending);
  * `utils/email_notifier.py`: `send_email`.

Modelling conventions:
  * JSON values (the objects produced by Python `json.load`) are the
    inductive `Json`; Python dicts are association lists with unique keys
    (`json.load` produces at most one value per key).
  * Python floats are modelled as rationals `ℚ`; the order comparisons the
    program performs (against 0, 3, 5, ±90, ±180) are exact on floats, so the
    order embedding into `ℚ` is faithful.
  * Raising an exception that a function does not catch is modelled with
    the `error` case of `Except` / a dedicated `crash` constructor; `sys.exit`
    (SystemExit) is modelled separately from other exceptions.
  * Python `float(x)` applied to a numeric string (e.g. `float("4.5")`) is
    outside the modelled input space (`pyFloat` treats every string as a
    conversion failure); no claim depends on numeric strings.
  * Iterating over a non-list value and `in` on values that are neither
    dicts nor lists are outside the modelled input space (they are possible
    only for configurations already rejected by `validate_config`).
-/

/-- JSON value as produced by Python `json.load`: objects are ordered
association lists with unique keys. -/
inductive Json where
  | null
  | bool (b : Bool)
  | num (q : ℚ)
  | str (s : String)
  | arr (elems : List Json)
  | obj (fields : List (String × Json))

/-- Association-list lookup on a JSON object, modelling Python dict `[]` /
`.get` on dicts with unique keys. -/
def jLookup : List (String × Json) → String → Option Json
  | [], _ => none
  | (k, v) :: rest, key => if k = key then some v else jLookup rest key

/-- Python dict indexing `config[k]`: `KeyError` (modelled as `Except.error`)
when the key is missing. -/
def getKey (kvs : List (String × Json)) (k : String) : Except String Json :=
  match jLookup kvs k with
  | some v => .ok v
  | none => .error ("KeyError: " ++ k)

/-- Python truthiness of a JSON value: `None`, `False`, `0`, `""`, `[]` and
an empty dict are falsy. -/
def pyTruthy : Json → Bool
  | .null => false
  | .bool b => b
  | .num q => decide (q ≠ 0)
  | .str s => decide (s ≠ "")
  | .arr elems => !elems.isEmpty
  | .obj fields => !fields.isEmpty

/-- Python `==` between an arbitrary JSON value and a string literal: true
exactly when the value is that string. -/
def jEqStr (v : Json) (s : String) : Bool :=
  match v with
  | .str t => decide (t = s)
  | _ => false

/-- Iteration over a value expected to be a list (`for x in v`). Values of
other shapes are outside the modelled input space. -/
def jAsList : Json → Except String (List Json)
  | .arr elems => .ok elems
  | _ => .error "TypeError: not iterable"

/-- Python `.get(k)` on a value expected to be a dict: `AttributeError`
(modelled as `Except.error`) on non-dicts. A stored JSON `null` and a missing
key are both Python `None`, so both collapse to `none`. -/
def dictGet (j : Json) (k : String) : Except String (Option Json) :=
  match j with
  | .obj kvs =>
    .ok (match jLookup kvs k with
         | some .null => none
         | r => r)
  | _ => .error "AttributeError: get"

/-- Python `k in v` for a string key: key membership on dicts, element
membership on lists (where `==` against a string is `jEqStr`); other shapes
are outside the modelled input space. -/
def pyContains (j : Json) (k : String) : Except String Bool :=
  match j with
  | .obj kvs => .ok (jLookup kvs k).isSome
  | .arr elems => .ok (elems.any (fun e => jEqStr e k))
  | _ => .error "TypeError: in"

/-- Python `float(x)` on a JSON value: numbers convert, booleans convert to
0/1, everything else raises (`none`). Numeric strings are outside the
modelled input space. -/
def pyFloat : Json → Option ℚ
  | .num q => some q
  | .bool b => some (if b then 1 else 0)
  | _ => none

/-- Characters of the regex class `[a-zA-Z0-9._%+-]` (local part of the
email pattern in `validate_email`). -/
def isLocalChar (c : Char) : Bool :=
  c.isAlpha || c.isDigit || c = '.' || c = '_' || c = '%' || c = '+' || c = '-'

/-- Characters of the regex class `[a-zA-Z0-9.-]` (domain part of the email
pattern in `validate_email`). -/
def isDomainChar (c : Char) : Bool :=
  c.isAlpha || c.isDigit || c = '.' || c = '-'

/-- ASCII whitespace stripped by Python `str.strip()` (Unicode whitespace is
outside the modelled input space). -/
def isPyWs (c : Char) : Bool :=
  c = ' ' || c = '\t' || c = '\n' || c = '\r' || c = '\x0b' || c = '\x0c'

/-- Python `str.strip()` on a character list. -/
def stripWs (l : List Char) : List Char :=
  ((l.dropWhile isPyWs).reverse.dropWhile isPyWs).reverse

/-- Matcher for the tail `[a-zA-Z0-9.-]+\.[a-zA-Z]\x7b2,\x7d$` of the email
regex: the maximal alphabetic suffix must have length at least two, be
preceded by a dot, and the rest (the domain) must be non-empty over the
domain class. The regex can only ever split at the last dot, since the
final group is letters-only. -/
def domainTail (l : List Char) : Bool :=
  let r := l.reverse
  let t := r.takeWhile (fun c => c.isAlpha)
  decide (2 ≤ t.length) &&
    (match r.dropWhile (fun c => c.isAlpha) with
     | c :: d => decide (c = '.') && !d.isEmpty && d.all isDomainChar
     | [] => false)

/-- Matcher for the anchored regex
`^[a-zA-Z0-9._%+-]+@[a-zA-Z0-9.-]+\.[a-zA-Z]\x7b2,\x7d$`: since `@` is in
neither class, the local part is exactly the longest initial run over the
local class, which must be non-empty and followed by `@`. -/
def emailMatch (l : List Char) : Bool :=
  match l.dropWhile isLocalChar with
  | c :: rest => decide (c = '@') && !(l.takeWhile isLocalChar).isEmpty && domainTail rest
  | [] => false

/-- Model of `validate_email` (utils/config.py): strip surrounding
whitespace, then match the anchored regex. Stripping first also removes the
trailing-newline exception of the regex anchor `$`. -/
def validate_email (email : String) : Bool :=
  emailMatch (stripWs email.toList)

/-- Errors appended by the notification-threshold block of `validate_config`
(utils/config.py lines 39-47): when the key is present, its value must be
(Python `==`) one of the three threshold names. -/
def thresholdErrors (config : List (String × Json)) : List String :=
  match jLookup config "notification_threshold" with
  | none => []
  | some t =>
    if jEqStr t "HIGH" || jEqStr t "MODERATE" || jEqStr t "ALL" then []
    else ["notification_threshold must be one of: HIGH, MODERATE, ALL"]

/-- Errors appended for one element of the `locations` list (index `i`,
0-based; messages use `i+1`). A non-dict element contributes only its own
error (`continue` in the source skips the coordinate checks). `float` on the
stored coordinate is `pyFloat`; a failing conversion is the caught
`ValueError`/`TypeError` branch. -/
def locationItemErrors (i : ℕ) : Json → List String
  | .obj kvs =>
    (let missing := ["city", "country", "latitude", "longitude"].filter
        (fun k => (jLookup kvs k).isNone)
     if missing.isEmpty then []
     else ["Location " ++ toString (i + 1) ++ " missing keys: " ++
           String.intercalate ", " missing]) ++
    (match jLookup kvs "latitude" with
     | none => []
     | some v =>
       match pyFloat v with
       | none => ["Location " ++ toString (i + 1) ++ " latitude must be a number"]
       | some lat =>
         if ¬(-90 ≤ lat ∧ lat ≤ 90) then
           ["Location " ++ toString (i + 1) ++ " latitude must be between -90 and 90"]
         else []) ++
    (match jLookup kvs "longitude" with
     | none => []
     | some v =>
       match pyFloat v with
       | none => ["Location " ++ toString (i + 1) ++ " longitude must be a number"]
       | some lng =>
         if ¬(-180 ≤ lng ∧ lng ≤ 180) then
           ["Location " ++ toString (i + 1) ++ " longitude must be between -180 and 180"]
         else [])
  | _ => ["Location " ++ toString (i + 1) ++ " must be a dictionary"]

/-- Errors of `enumerate(config["locations"])` starting at index `i`. -/
def locationListErrors (i : ℕ) : List Json → List String
  | [] => []
  | loc :: rest => locationItemErrors i loc ++ locationListErrors (i + 1) rest

/-- Errors appended by the locations block of `validate_config`
(utils/config.py lines 49-100): the new `locations` format is checked per
element (presence of the four keys and coordinate ranges); the legacy
`city`/`country` format is checked only for presence of the coordinate
keys. -/
def locationsErrors (config : List (String × Json)) : List String :=
  match jLookup config "locations" with
  | some v =>
    match v with
    | .arr elems =>
      if elems.isEmpty then ["At least one location must be configured"]
      else locationListErrors 0 elems
    | _ => ["\x27locations\x27 must be a list"]
  | none =>
    if (jLookup config "city").isSome ∧ (jLookup config "country").isSome then
      if (jLookup config "latitude").isNone ∨ (jLookup config "longitude").isNone then
        ["Old format config missing latitude or longitude"]
      else []
    else ["Config must have either \x27locations\x27 or \x27city\x27/\x27country\x27"]

/-- Validation of one email value: `validate_email` calls `.strip()` on its
argument, so a non-string value raises `AttributeError`, which
`validate_config` does not catch. -/
def emailItemCheck (e : Json) : Except String (List String) :=
  match e with
  | .str s => .ok (if validate_email s then [] else ["Invalid email format: " ++ s])
  | _ => .error "AttributeError: strip"

/-- Sequential validation of the elements of an `emails` list; the first
non-string element raises, discarding errors collected so far. -/
def emailListCheck : List Json → Except String (List String)
  | [] => .ok []
  | e :: rest =>
    match emailItemCheck e with
    | .error m => .error m
    | .ok errs =>
      match emailListCheck rest with
      | .error m => .error m
      | .ok more => .ok (errs ++ more)

/-- Errors appended by the emails block of `validate_config`
(utils/config.py lines 102-116); `Except.error` is an uncaught
`AttributeError` from a non-string email value. -/
def emailsErrors (config : List (String × Json)) : Except String (List String) :=
  match jLookup config "emails" with
  | some v =>
    match v with
    | .arr elems =>
      if elems.isEmpty then .ok ["At least one email must be configured"]
      else emailListCheck elems
    | _ => .ok ["\x27emails\x27 must be a list"]
  | none =>
    match jLookup config "email" with
    | some e => emailItemCheck e
    | none => .ok ["Config must have either \x27emails\x27 or \x27email\x27"]

/-- Model of `validate_config` (utils/config.py): the three blocks run in
order and append to one error list; only the emails block can raise, and
when it raises the errors of the earlier blocks are discarded. -/
def validate_config (config : List (String × Json)) : Except String (List String) :=
  match emailsErrors config with
  | .error m => .error m
  | .ok emailErrs => .ok (thresholdErrors config ++ locationsErrors config ++ emailErrs)

/-- State of the `config.json` file as `load_config` observes it: absent,
present but not valid JSON, or parsed to a JSON object. A file whose
top-level JSON value is not an object is outside the modelled input
space. -/
inductive FileState where
  | absent
  | unparsable
  | parsed (config : List (String × Json))

/-- Result of `load_config`: `exit` is `sys.exit` (SystemExit), `crash` is
an exception `load_config` does not catch (only `json.JSONDecodeError` is
caught, and `sys.exit` inside the `try` block is not a `JSONDecodeError`),
`ok` is a normal return. -/
inductive LoadResult where
  | exit (msg : String)
  | crash (msg : String)
  | ok (config : List (String × Json))

/-- Model of `load_config` (utils/config.py lines 121-156). -/
def load_config : FileState → LoadResult
  | .absent =>
    .exit "Configuration file not found. Please run \x27python main.py configure\x27 to create one."
  | .unparsable =>
    .exit "Error: Configuration file is corrupted. Please run \x27python main.py configure\x27 to recreate it."
  | .parsed config =>
    match validate_config config with
    | .error m => .crash m
    | .ok errors =>
      if errors.isEmpty then .ok config
      else .exit "\nPlease run \x27python main.py configure\x27 to fix the configuration."

/-- Model of `save_config` (utils/config.py lines 159-167): the file
afterwards holds exactly the serialized dictionary. `json.dump` followed by
`json.load` is the identity on the modelled JSON values, so the resulting
file state is `parsed config`. -/
def save_config (config : List (String × Json)) : FileState :=
  .parsed config

/-- Numeric KP cutoff chosen by `check` (utils/cli_commands.py lines
237-245) from the configured threshold value: `MODERATE` maps to 3.0, `ALL`
to 0.0, and everything else (including the default `HIGH` and any
unrecognized value) to 5.0. -/
def kpCutoffJ (v : Json) : ℚ :=
  if jEqStr v "MODERATE" then 3
  else if jEqStr v "ALL" then 0
  else 5

/-- Notification-membership decision of the per-location loop in `check`
(utils/cli_commands.py lines 276-287): the display classification picks a
branch, and each branch separately compares against the numeric cutoff; the
low-visibility branch additionally requires `kp > 0`. -/
def qualifies (kpT kp : ℚ) : Bool :=
  if 5 ≤ kp then decide (kpT ≤ kp)
  else if 3 ≤ kp then decide (kpT ≤ kp)
  else decide (0 < kp) && decide (kpT ≤ kp)

/-- Python indexing `v[k]` on a value expected to be a dict. -/
def jIndex (j : Json) (k : String) : Except String Json :=
  match j with
  | .obj kvs => getKey kvs k
  | _ => .error "TypeError: not subscriptable"

/-- KP extraction from one API response (utils/cli_commands.py lines
262-265): `data["ace"].get("kp")`, falling back to
`data["ace"]["current"].get("kp")` when that is `None` and `"current"` is
present; `none` is the `kp_index is None` outcome. -/
def aceKp (data : Json) : Except String (Option Json) :=
  match pyContains data "ace" with
  | .error m => .error m
  | .ok b =>
    if b then
      match jIndex data "ace" with
      | .error m => .error m
      | .ok ace =>
        match dictGet ace "kp" with
        | .error m => .error m
        | .ok (some v) => .ok (some v)
        | .ok none =>
          match pyContains ace "current" with
          | .error m => .error m
          | .ok b2 =>
            if b2 then
              match jIndex ace "current" with
              | .error m => .error m
              | .ok cur => dictGet cur "kp"
            else .ok none
    else .ok none

/-- One iteration of the location loop of `check` up to the KP value
(utils/cli_commands.py lines 255-272): read the coordinates, call the API
(`api` maps the latitude and longitude values to the response), extract the
KP index; `ok none` is the warn-and-continue path for a missing KP, and the
`loc["city"]`/`loc["country"]` reads of the status line are performed on
both paths. An inconvertible KP value is an uncaught `float` error. -/
def locKp (api : Json → Json → Json) (loc : Json) : Except String (Option ℚ) :=
  match jIndex loc "latitude" with
  | .error m => .error m
  | .ok lat =>
    match jIndex loc "longitude" with
    | .error m => .error m
    | .ok lng =>
      match aceKp (api lat lng) with
      | .error m => .error m
      | .ok none =>
        match jIndex loc "city" with
        | .error m => .error m
        | .ok _ =>
          match jIndex loc "country" with
          | .error m => .error m
          | .ok _ => .ok none
      | .ok (some kpJ) =>
        match pyFloat kpJ with
        | none => .error "TypeError: float() argument"
        | some kp =>
          match jIndex loc "city" with
          | .error m => .error m
          | .ok _ =>
            match jIndex loc "country" with
            | .error m => .error m
            | .ok _ => .ok (some kp)

/-- Location loop of `check`: accumulate, in order, the locations whose KP
value satisfies `qualifies`; a location without a KP index is skipped; an
exception anywhere aborts the whole command before any email is sent. -/
def checkLocs (api : Json → Json → Json) (kpT : ℚ) :
    List Json → Except String (List (Json × ℚ))
  | [] => .ok []
  | loc :: rest =>
    match locKp api loc with
    | .error m => .error m
    | .ok none => checkLocs api kpT rest
    | .ok (some kp) =>
      match checkLocs api kpT rest with
      | .error m => .error m
      | .ok tail => .ok (if qualifies kpT kp then (loc, kp) :: tail else tail)

/-- The `locations` variable of `check` (utils/cli_commands.py lines
203-213): the `locations` entry of the config, defaulting to `[]`, replaced
by a one-element list built from the legacy top-level keys when it is falsy
and `city` is present. -/
def locationsVar (config : List (String × Json)) : Except String Json :=
  let locations0 := (jLookup config "locations").getD (.arr [])
  if ¬ pyTruthy locations0 ∧ (jLookup config "city").isSome then
    match getKey config "city" with
    | .error m => .error m
    | .ok c =>
      match getKey config "country" with
      | .error m => .error m
      | .ok co =>
        match getKey config "latitude" with
        | .error m => .error m
        | .ok la =>
          match getKey config "longitude" with
          | .error m => .error m
          | .ok lo =>
            .ok (.arr [.obj [("city", c), ("country", co),
                             ("latitude", la), ("longitude", lo)]])
  else .ok locations0

/-- The `emails` variable of `check` (utils/cli_commands.py lines 223-225):
the `emails` entry if present, else a one-element list of the truthy legacy
`email` value, else `[]`. -/
def emailsVar (config : List (String × Json)) : Json :=
  match jLookup config "emails" with
  | some v => v
  | none =>
    match jLookup config "email" with
    | some e => if pyTruthy e then .arr [e] else .arr []
    | none => .arr []

/-- Observable outcome of a completed `check` run: the accumulated
notification list, the value of the `emails` variable, how many alert email
bodies were composed (`create_aurora_alert_email` calls), and the recipients
passed to `send_email`, in order. -/
structure CheckTrace where
  notifLocs : List (Json × ℚ)
  emailsVal : Json
  composed : ℕ
  sendTo : List Json

/-- Body of `check` after a successful `load_config` (utils/cli_commands.py
lines 202-318). The early returns for no locations and no emails produce an
empty trace; otherwise the location loop runs, and exactly when its result
is non-empty one alert body is composed and `send_email` is called once per
element of `emails`. The field reads of the subject line and of the email
body are performed on location dictionaries that already passed through the
loop and are omitted. -/
def checkWithConfig (config : List (String × Json)) (api : Json → Json → Json) :
    Except String CheckTrace :=
  match locationsVar config with
  | .error m => .error m
  | .ok locations =>
    if ¬ pyTruthy locations then .ok ⟨[], .arr [], 0, []⟩
    else if ¬ pyTruthy (emailsVar config) then .ok ⟨[], emailsVar config, 0, []⟩
    else
      match jAsList locations with
      | .error m => .error m
      | .ok locList =>
        match checkLocs api
            (kpCutoffJ ((jLookup config "notification_threshold").getD (.str "HIGH")))
            locList with
        | .error m => .error m
        | .ok notif =>
          if notif.isEmpty then .ok ⟨notif, emailsVar config, 0, []⟩
          else
            match jAsList (emailsVar config) with
            | .error m => .error m
            | .ok recipients => .ok ⟨notif, emailsVar config, 1, recipients⟩

/-- Model of the `check` command (utils/cli_commands.py lines 192-318):
`load_config`, then the body; a SystemExit or uncaught exception from
loading is surfaced as the error of the whole command. -/
def check (fs : FileState) (api : Json → Json → Json) : Except String CheckTrace :=
  match load_config fs with
  | .exit m => .error ("SystemExit: " ++ m)
  | .crash m => .error m
  | .ok config => checkWithConfig config api

/-- An API response reporting a fixed KP value, used in concrete runs. -/
def kpApi (kp : ℚ) : Json → Json → Json :=
  fun _ _ => .obj [("ace", .obj [("kp", .num kp)])]

/-- SMTP environment as `send_email` reads it (utils/email_notifier.py
lines 39-42): `os.environ.get` yields `none` for an unset variable. -/
structure SmtpEnv where
  server : Option String
  port : Option String
  username : Option String
  password : Option String

/-- Behaviour of the SMTP session a `send_email` call would open: it either
succeeds or raises one of the exception classes the source handles
(`SMTPAuthenticationError`, other `SMTPException`, any other
`Exception`). -/
inductive SmtpOutcome where
  | success
  | authError
  | smtpError (msg : String)
  | otherError (msg : String)

/-- Normal-return outcomes of `send_email`: credentials missing (warning
printed, no connection attempted), message sent, or a caught exception
reported as a printed warning. -/
inductive SendResult where
  | skippedNoCreds
  | sent (recipient : String)
  | warnedAuth
  | warnedSmtp (msg : String)
  | warnedOther (msg : String)

/-- Python falsiness of an environment value: unset (`None`) or the empty
string. -/
def envFalsy : Option String → Bool
  | none => true
  | some s => s.isEmpty

/-- Model of `send_email` (utils/email_notifier.py lines 15-91). When any of
server, username, password is falsy (`not all([...])`), it returns after
printing a warning, without touching the session. Otherwise the session runs
and every exception listed in `SmtpOutcome` is caught by one of the three
`except` clauses, so the function returns normally; `Except.error` (an
exception escaping `send_email`) is never produced. The recipient, subject
and bodies do not influence the control flow. -/
def send_email (env : SmtpEnv) (toEmail subject body : String)
    (htmlBody : Option String) (outcome : SmtpOutcome) :
    Except String SendResult :=
  if envFalsy env.server || envFalsy env.username || envFalsy env.password then
    .ok .skippedNoCreds
  else
    match outcome with
    | .success => .ok (.sent toEmail)
    | .authError => .ok .warnedAuth
    | .smtpError m => .ok (.warnedSmtp m)
    | .otherError m => .ok (.warnedOther m)

/-- The per-recipient sending loop of `check` (utils/cli_commands.py lines
309-310): one `send_email` call per recipient, in order; an exception
escaping any call would abort the loop (`Except` short-circuits). -/
def sendToAll (env : SmtpEnv) (emails : List String) (subject body : String)
    (htmlBody : Option String) (outcomes : String → SmtpOutcome) :
    Except String (List SendResult) :=
  match emails with
  | [] => .ok []
  | e :: rest =>
    match send_email env e subject body htmlBody (outcomes e) with
    | .error m => .error m
    | .ok r =>
      match sendToAll env rest subject body htmlBody outcomes with
      | .error m => .error m
      | .ok rs => .ok (r :: rs)

/-- A valid new-format configuration used as a concrete input in witnesses. -/
def goodConfig : List (String × Json) :=
  [("locations", .arr [.obj [("city", .str "Tromso"), ("country", .str "Norway"),
      ("latitude", .num 69), ("longitude", .num 18)]]),
   ("emails", .arr [.str "a@bc.de"]),
   ("notification_threshold", .str "HIGH")]

/-- A legacy configuration whose `email` value is a number: every key the
validator wants is present and the coordinates are fine, but
`validate_email` calls `.strip()` on the value, raising `AttributeError`. -/
def numericEmailConfig : List (String × Json) :=
  [("city", .str "Tromso"), ("country", .str "Norway"),
   ("latitude", .num 69), ("longitude", .num 18), ("email", .num 5)]

/-- A legacy configuration whose latitude 200 is far outside [-90, 90]. -/
def legacyOutOfRange : List (String × Json) :=
  [("city", .str "Tromso"), ("country", .str "Norway"),
   ("latitude", .num 200), ("longitude", .num 10), ("email", .str "a@bc.de")]

/-- A new-format configuration with the same out-of-range latitude. -/
def newOutOfRange : List (String × Json) :=
  [("locations", .arr [.obj [("city", .str "Tromso"), ("country", .str "Norway"),
      ("latitude", .num 200), ("longitude", .num 10)]]),
   ("emails", .arr [.str "a@bc.de"])]

/-- A valid one-location, two-recipient configuration with threshold HIGH. -/
def alertConfig : List (String × Json) :=
  [("locations", .arr [.obj [("city", .str "Tromso"), ("country", .str "Norway"),
      ("latitude", .num 69), ("longitude", .num 18)]]),
   ("emails", .arr [.str "a@bc.de", .str "x@yz.fi"]),
   ("notification_threshold", .str "HIGH")]

/-- The trace of running `check` on `alertConfig` with an API reporting
KP 6. -/
def alertTrace : CheckTrace :=
  ⟨[(.obj [("city", .str "Tromso"), ("country", .str "Norway"),
           ("latitude", .num 69), ("longitude", .num 18)], 6)],
   .arr [.str "a@bc.de", .str "x@yz.fi"], 1,
   [.str "a@bc.de", .str "x@yz.fi"]⟩

/-- Legacy-format configuration: top-level city/country/latitude/longitude
and a single `email`, optionally followed by a `notification_threshold`
entry. -/
def legacyConfig (city country : String) (lat lng : ℚ) (email : String)
    (thr : Option Json) : List (String × Json) :=
  [("city", .str city), ("country", .str country),
   ("latitude", .num lat), ("longitude", .num lng), ("email", .str email)] ++
  (match thr with
   | some t => [("notification_threshold", t)]
   | none => [])

/-- The equivalent new-format configuration: the same location as the single
element of `locations` and the same email as the single element of
`emails`. -/
def newFormatConfig (city country : String) (lat lng : ℚ) (email : String)
    (thr : Option Json) : List (String × Json) :=
  [("locations", .arr [.obj [("city", .str city), ("country", .str country),
      ("latitude", .num lat), ("longitude", .num lng)]]),
   ("emails", .arr [.str email])] ++
  (match thr with
   | some t => [("notification_threshold", t)]
   | none => [])

/-- C1: for every KP value, membership in the notification set computed by
`check` (the `qualifies` decision applied to the cutoff of the configured
threshold name) matches the cutoff table: under HIGH a location is included
iff its KP is at least 5, under MODERATE iff at least 3, and under ALL iff
strictly positive (so KP exactly 0 is excluded under ALL). -/
theorem c1_notification_cutoff_table (kp : ℚ) :
    (qualifies (kpCutoffJ (.str "HIGH")) kp = true ↔ 5 ≤ kp) ∧
    (qualifies (kpCutoffJ (.str "MODERATE")) kp = true ↔ 3 ≤ kp) ∧
    (qualifies (kpCutoffJ (.str "ALL")) kp = true ↔ 0 < kp) := by
  have hH : kpCutoffJ (.str "HIGH") = 5 := by decide
  have hM : kpCutoffJ (.str "MODERATE") = 3 := by decide
  have hA : kpCutoffJ (.str "ALL") = 0 := by decide
  refine ⟨?_, ?_, ?_⟩
  · rw [hH]; unfold qualifies
    split_ifs <;> simp_all
  · rw [hM]; unfold qualifies
    split_ifs <;> simp_all
  · rw [hA]; unfold qualifies
    split_ifs with h5 h3
    · simp only [decide_eq_true_eq]
      constructor <;> intro <;> linarith
    · simp only [decide_eq_true_eq]
      constructor <;> intro <;> linarith
    · simp only [Bool.and_eq_true, decide_eq_true_eq]
      constructor
      · exact fun h => h.1
      · exact fun h => ⟨h, le_of_lt h⟩

/-- C9: the `notification_threshold` field is optional: a configuration
without the key contributes no threshold validation error, and `check`
resolves the missing key to `"HIGH"`, whose numeric cutoff is 5.0; moreover
any value other than `"MODERATE"` and `"ALL"` (recognized or not) also maps
to the 5.0 cutoff. -/
theorem c9_threshold_optional_defaults_high :
    (∀ config : List (String × Json),
      jLookup config "notification_threshold" = none →
      thresholdErrors config = [] ∧
      kpCutoffJ ((jLookup config "notification_threshold").getD (.str "HIGH")) = 5) ∧
    (∀ v : Json, v ≠ .str "MODERATE" → v ≠ .str "ALL" → kpCutoffJ v = 5) := by
  constructor
  · intro config h
    refine ⟨?_, ?_⟩
    · unfold thresholdErrors
      rw [h]
    · rw [h]
      decide
  · intro v h1 h2
    have e1 : jEqStr v "MODERATE" = false := by
      cases v <;> simp_all [jEqStr]
    have e2 : jEqStr v "ALL" = false := by
      cases v <;> simp_all [jEqStr]
    unfold kpCutoffJ
    rw [e1, e2]
    simp

/-- Witness for C9 at a config without the key and at an unrecognized
numeric threshold value. -/
theorem c9_witness :
    (thresholdErrors [("emails", Json.arr [Json.str "a@bc.de"])] = [] ∧
     kpCutoffJ ((jLookup [("emails", Json.arr [Json.str "a@bc.de"])]
        "notification_threshold").getD (.str "HIGH")) = 5) ∧
    kpCutoffJ (.num 7) = 5 :=
  ⟨c9_threshold_optional_defaults_high.1 [("emails", Json.arr [Json.str "a@bc.de"])] rfl,
   c9_threshold_optional_defaults_high.2 (.num 7) (by simp) (by simp)⟩

/-- C10: when any of the server, username or password environment variables
is unset, `send_email` returns the printed-warning outcome without
consulting the SMTP session, for every recipient, subject, body and session
behaviour. -/
theorem c10_missing_credentials_skip (env : SmtpEnv) (toEmail subject body : String)
    (htmlBody : Option String) (outcome : SmtpOutcome)
    (h : env.server = none ∨ env.username = none ∨ env.password = none) :
    send_email env toEmail subject body htmlBody outcome = .ok .skippedNoCreds := by
  unfold send_email
  rcases h with h | h | h <;> rw [h] <;> simp [envFalsy]

/-- Witness for C10 with an unset server and a session that would raise. -/
theorem c10_witness :
    send_email ⟨none, some "587", some "u", some "p"⟩ "a@bc.de" "s" "b" none
      (.smtpError "boom") = .ok .skippedNoCreds :=
  c10_missing_credentials_skip ⟨none, some "587", some "u", some "p"⟩
    "a@bc.de" "s" "b" none (.smtpError "boom") (Or.inl rfl)

/-- C8: every SMTP error the session can raise is caught inside
`send_email`, which returns normally (never `Except.error`), and therefore
the per-recipient loop of `check` processes every recipient: it returns one
result per configured recipient no matter which sends fail. -/
theorem c8_smtp_errors_nonfatal (env : SmtpEnv) (subject body : String)
    (htmlBody : Option String) :
    (∀ (toEmail : String) (outcome : SmtpOutcome),
      ∃ r, send_email env toEmail subject body htmlBody outcome = .ok r) ∧
    (∀ (emails : List String) (outcomes : String → SmtpOutcome),
      ∃ rs, sendToAll env emails subject body htmlBody outcomes = .ok rs ∧
            rs.length = emails.length) := by
  have hone : ∀ (toEmail : String) (outcome : SmtpOutcome),
      ∃ r, send_email env toEmail subject body htmlBody outcome = .ok r := by
    intro toEmail outcome
    unfold send_email
    split_ifs
    · exact ⟨.skippedNoCreds, rfl⟩
    · cases outcome
      · exact ⟨.sent toEmail, rfl⟩
      · exact ⟨.warnedAuth, rfl⟩
      · exact ⟨.warnedSmtp _, rfl⟩
      · exact ⟨.warnedOther _, rfl⟩
  refine ⟨hone, ?_⟩
  intro emails outcomes
  induction emails with
  | nil => exact ⟨[], rfl, rfl⟩
  | cons e rest ih =>
    obtain ⟨rs, hrs, hlen⟩ := ih
    obtain ⟨r, hr⟩ := hone e (outcomes e)
    refine ⟨r :: rs, ?_, by simp [hlen]⟩
    unfold sendToAll
    rw [hr, hrs]

/-- C6: saving a configuration that validates cleanly and loading it back
returns the same structure. -/
theorem c6_save_load_round_trip (config : List (String × Json))
    (h : validate_config config = .ok []) :
    load_config (save_config config) = .ok config := by
  simp [save_config, load_config, h]

/-- Witness for C6 at a concrete valid configuration. -/
theorem c6_witness : load_config (save_config goodConfig) = .ok goodConfig :=
  c6_save_load_round_trip goodConfig rfl

/-- Counterexample to C3: on this parsed configuration `load_config`
neither exits via SystemExit nor returns — the `AttributeError` raised by
`validate_email` on the non-string email value propagates out (only
`json.JSONDecodeError` is caught), while the claim allows only a SystemExit
or a normal return for a parseable file. -/
theorem c3_counterexample :
    load_config (.parsed numericEmailConfig) = .crash "AttributeError: strip" := rfl

/-- C3 (amended): `load_config` raises SystemExit if and only if the file is
absent, unparsable, or `validate_config` returns a non-empty error list; and
whenever `validate_config` returns an empty error list it returns the parsed
configuration dictionary unchanged. (On a configuration whose email value is
not a string, `validate_config` instead raises `AttributeError`, which
`load_config` propagates — neither SystemExit nor a return.) -/
theorem c3_load_config_exit_iff (fs : FileState) :
    ((∃ m, load_config fs = .exit m) ↔
      (fs = .absent ∨ fs = .unparsable ∨
       ∃ config errs, fs = .parsed config ∧ validate_config config = .ok errs ∧
         errs ≠ [])) ∧
    (∀ config, fs = .parsed config → validate_config config = .ok [] →
      load_config fs = .ok config) := by
  cases fs with
  | absent =>
    refine ⟨⟨fun _ => Or.inl rfl, fun _ => ⟨_, rfl⟩⟩, ?_⟩
    intro config h
    exact absurd h (by simp)
  | unparsable =>
    refine ⟨⟨fun _ => Or.inr (Or.inl rfl), fun _ => ⟨_, rfl⟩⟩, ?_⟩
    intro config h
    exact absurd h (by simp)
  | parsed c =>
    constructor
    · constructor
      · intro ⟨m, hm⟩
        refine Or.inr (Or.inr ⟨c, ?_⟩)
        simp only [load_config] at hm
        cases hv : validate_config c with
        | error e => rw [hv] at hm; cases hm
        | ok errs =>
          rw [hv] at hm
          by_cases he : errs = []
          · subst he
            simp at hm
          · exact ⟨errs, rfl, rfl, he⟩
      · intro h
        rcases h with h | h | ⟨config, errs, hc, hv, hne⟩
        · cases h
        · cases h
        · cases hc
          simp only [load_config, hv]
          rw [if_neg (by simpa using hne)]
          exact ⟨_, rfl⟩
    · intro config h hv
      cases h
      simp [load_config, hv]

/-- Witness for C3 applying the theorem at the absent file state and at a
concrete valid parsed configuration. -/
theorem c3_witness :
    (∃ m, load_config .absent = .exit m) ∧
    load_config (.parsed goodConfig) = .ok goodConfig :=
  ⟨(c3_load_config_exit_iff .absent).1.mpr (Or.inl rfl),
   (c3_load_config_exit_iff (.parsed goodConfig)).2 goodConfig rfl rfl⟩

/-- Counterexample to C5: this legacy-format configuration contains a
location with latitude 200, yet `validate_config` returns the empty error
list — the legacy branch checks only that the coordinate keys are present,
never their ranges. -/
theorem c5_counterexample : validate_config legacyOutOfRange = .ok [] := rfl

/-- Helper: the error list of the locations loop is non-empty as soon as
some member contributes an error at every index. -/
theorem locationListErrors_ne_nil (loc : Json)
    (hloc : ∀ j, locationItemErrors j loc ≠ []) :
    ∀ (elems : List Json) (i : ℕ), loc ∈ elems → locationListErrors i elems ≠ [] := by
  intro elems
  induction elems with
  | nil => intro i h; cases h
  | cons a rest ih =>
    intro i hmem hcon
    unfold locationListErrors at hcon
    rw [List.append_eq_nil] at hcon
    rcases List.mem_cons.mp hmem with h | h
    · subst h
      exact hloc i hcon.1
    · exact ih (i + 1) h hcon.2

/-- Helper: a location dictionary with an out-of-range numeric latitude or
longitude contributes a non-empty error list at every index. -/
theorem locationItemErrors_range_ne_nil (kvs : List (String × Json)) (q : ℚ) (j : ℕ)
    (h : (jLookup kvs "latitude" = some (.num q) ∧ (q < -90 ∨ 90 < q)) ∨
         (jLookup kvs "longitude" = some (.num q) ∧ (q < -180 ∨ 180 < q))) :
    locationItemErrors j (.obj kvs) ≠ [] := by
  intro hcon
  simp only [locationItemErrors] at hcon
  rw [List.append_eq_nil, List.append_eq_nil] at hcon
  rcases h with ⟨hl, hr⟩ | ⟨hl, hr⟩
  · have hb := hcon.1.2
    rw [hl] at hb
    simp only [pyFloat] at hb
    rw [if_pos (by rcases hr with hr | hr <;> intro hc <;> linarith [hc.1, hc.2])] at hb
    cases hb
  · have hb := hcon.2
    rw [hl] at hb
    simp only [pyFloat] at hb
    rw [if_pos (by rcases hr with hr | hr <;> intro hc <;> linarith [hc.1, hc.2])] at hb
    cases hb

/-- C5 (amended): a configuration in the new `locations`-list format whose
list contains a location dictionary with a numeric latitude outside
[-90, 90] or longitude outside [-180, 180] fails validation; the legacy
top-level format, however, is checked only for presence of the coordinate
keys (see the counterexample), not for their ranges. -/
theorem c5_out_of_range_fails_validation (config : List (String × Json))
    (elems : List Json) (kvs : List (String × Json)) (q : ℚ)
    (hl : jLookup config "locations" = some (.arr elems))
    (hmem : Json.obj kvs ∈ elems)
    (hr : (jLookup kvs "latitude" = some (.num q) ∧ (q < -90 ∨ 90 < q)) ∨
          (jLookup kvs "longitude" = some (.num q) ∧ (q < -180 ∨ 180 < q))) :
    validate_config config ≠ .ok [] := by
  have hne : elems.isEmpty = false := by
    cases elems with
    | nil => cases hmem
    | cons a rest => rfl
  have heq : locationsErrors config = locationListErrors 0 elems := by
    unfold locationsErrors
    rw [hl]
    simp [hne]
  have hlocs : locationsErrors config ≠ [] := by
    rw [heq]
    exact locationListErrors_ne_nil (.obj kvs)
      (fun j => locationItemErrors_range_ne_nil kvs q j hr) elems 0 hmem
  intro hcon
  unfold validate_config at hcon
  cases he : emailsErrors config with
  | error m => rw [he] at hcon; cases hcon
  | ok es =>
    rw [he] at hcon
    injection hcon with hcon
    rw [List.append_eq_nil, List.append_eq_nil] at hcon
    exact hlocs hcon.1.2

/-- Witness for C5 at the concrete new-format configuration with latitude
200. -/
theorem c5_witness : validate_config newOutOfRange ≠ .ok [] :=
  c5_out_of_range_fails_validation newOutOfRange
    [.obj [("city", .str "Tromso"), ("country", .str "Norway"),
           ("latitude", .num 200), ("longitude", .num 10)]]
    [("city", .str "Tromso"), ("country", .str "Norway"),
     ("latitude", .num 200), ("longitude", .num 10)] 200
    rfl (List.mem_singleton.mpr rfl)
    (Or.inl ⟨rfl, Or.inr (by norm_num)⟩)

/-- Helper: stripping whitespace yields a sublist of the original list. -/
theorem stripWs_sublist (l : List Char) : List.Sublist (stripWs l) l := by
  unfold stripWs
  have h2 : List.Sublist ((l.dropWhile isPyWs).reverse.dropWhile isPyWs)
      (l.dropWhile isPyWs).reverse :=
    List.dropWhile_sublist _
  have h3 := h2.reverse
  rw [List.reverse_reverse] at h3
  exact h3.trans (List.dropWhile_sublist _)

/-- Helper: a character list accepted by the email matcher contains `@`. -/
theorem emailMatch_at_mem (l : List Char) (hm : emailMatch l = true) : '@' ∈ l := by
  unfold emailMatch at hm
  cases hd : l.dropWhile isLocalChar with
  | nil => rw [hd] at hm; cases hm
  | cons c rest =>
    rw [hd] at hm
    simp only [Bool.and_eq_true, decide_eq_true_eq] at hm
    obtain ⟨⟨hc, _⟩, _⟩ := hm
    subst hc
    exact List.Sublist.mem (by rw [hd]; exact List.mem_cons_self _ _)
      (List.dropWhile_sublist _)

/-- Helper: a character list accepted by the email matcher ends in a dot
followed by at least two letters. -/
theorem emailMatch_dot_suffix (l : List Char) (hm : emailMatch l = true) :
    ∃ pre t, l = pre ++ '.' :: t ∧ t.all (fun c => c.isAlpha) = true ∧ 2 ≤ t.length := by
  unfold emailMatch at hm
  cases hd : l.dropWhile isLocalChar with
  | nil => rw [hd] at hm; cases hm
  | cons c rest =>
    rw [hd] at hm
    simp only [Bool.and_eq_true, decide_eq_true_eq] at hm
    obtain ⟨⟨hc, _⟩, hdt⟩ := hm
    subst hc
    simp only [domainTail] at hdt
    cases hdd : rest.reverse.dropWhile (fun c => c.isAlpha) with
    | nil =>
      rw [hdd] at hdt
      simp at hdt
    | cons c2 d =>
      rw [hdd] at hdt
      simp only [Bool.and_eq_true, decide_eq_true_eq] at hdt
      obtain ⟨hlen, ⟨hc2, _⟩, _⟩ := hdt
      subst hc2
      obtain ⟨tw, htw⟩ : ∃ tw, List.takeWhile (fun c => c.isAlpha) rest.reverse = tw :=
        ⟨_, rfl⟩
      rw [htw] at hlen
      obtain ⟨lw, hlw⟩ : ∃ lw, List.takeWhile isLocalChar l = lw := ⟨_, rfl⟩
      have h1 : tw ++ '.' :: d = rest.reverse := by
        rw [← htw, ← hdd]
        exact List.takeWhile_append_dropWhile _ _
      have h2 : rest = d.reverse ++ '.' :: tw.reverse := by
        have h3 := congrArg List.reverse h1
        rw [List.reverse_reverse] at h3
        rw [← h3, List.reverse_append, List.reverse_cons, List.append_assoc,
            List.singleton_append]
      have hl : l = lw ++ '@' :: rest := by
        conv_lhs => rw [← List.takeWhile_append_dropWhile isLocalChar l]
        rw [hd, hlw]
      refine ⟨lw ++ '@' :: d.reverse, tw.reverse, ?_, ?_, ?_⟩
      · conv_lhs => rw [hl, h2]
        rw [List.append_assoc, List.cons_append]
      · rw [← htw, List.all_reverse]
        exact List.all_takeWhile
      · rw [List.length_reverse]
        exact hlen

/-- C7: `validate_email` returns `False` for every input that either
contains no `@` character or whose whitespace-stripped form does not end in
a dot followed by at least two letters. -/
theorem c7_invalid_email_rejected (s : String)
    (h : ('@' ∉ s.toList) ∨
         ¬ ∃ pre t, stripWs s.toList = pre ++ '.' :: t ∧
             t.all (fun c => c.isAlpha) = true ∧ 2 ≤ t.length) :
    validate_email s = false := by
  cases hv : validate_email s with
  | false => rfl
  | true =>
    exfalso
    unfold validate_email at hv
    rcases h with h | h
    · exact h (List.Sublist.mem (emailMatch_at_mem _ hv) (stripWs_sublist _))
    · exact h (emailMatch_dot_suffix _ hv)

/-- Witness for C7 at a concrete input that contains no `@`. -/
theorem c7_witness : validate_email "aurora.example.com" = false :=
  c7_invalid_email_rejected "aurora.example.com" (Or.inl (by decide))

/-- Helper: a successful list coercion pins down the underlying value. -/
theorem jAsList_ok (v : Json) (xs : List Json) (h : jAsList v = .ok xs) :
    v = .arr xs := by
  cases v <;> simp_all [jAsList]

/-- C2: in every completed `check` run, a non-empty accumulated notification
list yields exactly one composed alert body and one `send_email` call per
configured recipient (the recipients passed to `send_email` are exactly the
configured emails list), while an empty accumulated list yields no composed
body and no `send_email` call. -/
theorem c2_one_send_per_recipient (fs : FileState) (api : Json → Json → Json)
    (tr : CheckTrace) (h : check fs api = .ok tr) :
    (tr.notifLocs ≠ [] → tr.composed = 1 ∧ tr.emailsVal = .arr tr.sendTo) ∧
    (tr.notifLocs = [] → tr.composed = 0 ∧ tr.sendTo = []) := by
  unfold check at h
  split at h
  · exact absurd h (by simp)
  · exact absurd h (by simp)
  · unfold checkWithConfig at h
    split at h
    · exact absurd h (by simp)
    · split at h
      · injection h with h
        subst h
        simp
      · split at h
        · injection h with h
          subst h
          simp
        · split at h
          · exact absurd h (by simp)
          · split at h
            · exact absurd h (by simp)
            · split at h
              · next hemp =>
                injection h with h
                subst h
                exact ⟨fun hne => absurd (List.isEmpty_iff.mp hemp) hne,
                       fun _ => ⟨rfl, rfl⟩⟩
              · next hemp =>
                split at h
                · exact absurd h (by simp)
                · next recipients hrec =>
                  injection h with h
                  subst h
                  exact ⟨fun _ => ⟨rfl, jAsList_ok _ _ hrec⟩,
                         fun hnil => absurd (by simp_all) hemp⟩

/-- Witness for C2: with one configured location whose API response reports
KP 6 and threshold HIGH, exactly one alert body is composed and `send_email`
is called exactly once per configured recipient. -/
theorem c2_witness :
    check (.parsed alertConfig) (kpApi 6) = .ok alertTrace ∧
    alertTrace.composed = 1 ∧ alertTrace.emailsVal = .arr alertTrace.sendTo :=
  ⟨rfl, (c2_one_send_per_recipient (.parsed alertConfig) (kpApi 6) alertTrace rfl).1
    (by simp [alertTrace])⟩

/-- Counterexample to C4: this legacy configuration (latitude 200) and its
equivalent new-format configuration make `check` behave differently — the
legacy one passes validation (presence-only coordinate checks) and sends an
alert, while the new-format one is rejected by `validate_config` and `check`
exits before contacting the API. -/
theorem c4_counterexample :
    check (.parsed legacyOutOfRange) (kpApi 6) ≠ check (.parsed newOutOfRange) (kpApi 6) := by
  intro h
  rw [show check (.parsed legacyOutOfRange) (kpApi 6) =
        .ok ⟨[(.obj [("city", .str "Tromso"), ("country", .str "Norway"),
                     ("latitude", .num 200), ("longitude", .num 10)], 6)],
             .arr [.str "a@bc.de"], 1, [.str "a@bc.de"]⟩ from rfl,
      show check (.parsed newOutOfRange) (kpApi 6) =
        .error ("SystemExit: " ++
          "\nPlease run \x27python main.py configure\x27 to fix the configuration.")
        from rfl] at h
  exact Except.noConfusion h

/-- Helper: loading a parsed configuration that validates cleanly returns
it. -/
theorem load_config_parsed_ok (c : List (String × Json))
    (h : validate_config c = .ok []) : load_config (.parsed c) = .ok c := by
  simp [load_config, h]

/-- Helper: loading a parsed configuration with validation errors exits. -/
theorem load_config_parsed_exit (c : List (String × Json)) (errs : List String)
    (h : validate_config c = .ok errs) (he : errs ≠ []) :
    load_config (.parsed c) =
      .exit "\nPlease run \x27python main.py configure\x27 to fix the configuration." := by
  simp [load_config, h, he]

/-- Helper: a validation crash propagates out of `load_config`. -/
theorem load_config_parsed_crash (c : List (String × Json)) (m : String)
    (h : validate_config c = .error m) : load_config (.parsed c) = .crash m := by
  simp [load_config, h]

/-- Helper: two parsed configurations with the same validation outcome and
the same post-load behaviour make `check` agree. -/
theorem check_eq_of (c₁ c₂ : List (String × Json)) (api : Json → Json → Json)
    (hv : validate_config c₁ = validate_config c₂)
    (hbody : validate_config c₁ = .ok [] →
      checkWithConfig c₁ api = checkWithConfig c₂ api) :
    check (.parsed c₁) api = check (.parsed c₂) api := by
  cases hvl : validate_config c₁ with
  | error m =>
    have h1 := load_config_parsed_crash c₁ m hvl
    have h2 := load_config_parsed_crash c₂ m (by rw [← hv]; exact hvl)
    unfold check
    rw [h1, h2]
  | ok errs =>
    have hvn : validate_config c₂ = .ok errs := by rw [← hv]; exact hvl
    by_cases he : errs = []
    · subst he
      have h1 := load_config_parsed_ok c₁ hvl
      have h2 := load_config_parsed_ok c₂ hvn
      unfold check
      rw [h1, h2]
      exact hbody hvl
    · have h1 := load_config_parsed_exit c₁ errs hvl he
      have h2 := load_config_parsed_exit c₂ errs hvn he
      unfold check
      rw [h1, h2]

/-- C4 (amended): for every legacy-format configuration whose coordinates
are numbers in the valid ranges, the `check` command behaves identically on
the legacy configuration and on the equivalent new-format configuration.
(Without the range restriction the two differ: `validate_config` range
checks coordinates only in the new format — see the counterexample.) -/
theorem c4_legacy_new_format_equivalent (city country : String) (lat lng : ℚ)
    (email : String) (thr : Option Json) (api : Json → Json → Json)
    (hla1 : -90 ≤ lat) (hla2 : lat ≤ 90) (hlo1 : -180 ≤ lng) (hlo2 : lng ≤ 180) :
    check (.parsed (legacyConfig city country lat lng email thr)) api =
    check (.parsed (newFormatConfig city country lat lng email thr)) api := by
  apply check_eq_of
  · cases thr <;>
      simp [validate_config, legacyConfig, newFormatConfig, emailsErrors,
        emailItemCheck, emailListCheck, thresholdErrors, locationsErrors,
        locationListErrors, locationItemErrors, jLookup, pyFloat,
        hla1, hla2, hlo1, hlo2]
  · intro hok
    have hve : validate_email email = true := by
      by_contra hne
      rw [Bool.not_eq_true] at hne
      cases thr <;>
        simp [validate_config, legacyConfig, emailsErrors, emailItemCheck,
          jLookup, hne] at hok
    have hne : email ≠ "" := by
      intro heq
      rw [heq] at hve
      exact absurd hve (by decide)
    cases thr <;>
      simp [checkWithConfig, locationsVar, emailsVar, legacyConfig, newFormatConfig,
        jLookup, getKey, pyTruthy, jAsList, hne, hve]

/-- Witness for C4 at a concrete in-range legacy configuration and its
new-format equivalent. -/
theorem c4_witness :
    check (.parsed (legacyConfig "Tromso" "Norway" 69 18 "a@bc.de" none)) (kpApi 6) =
    check (.parsed (newFormatConfig "Tromso" "Norway" 69 18 "a@bc.de" none)) (kpApi 6) :=
  c4_legacy_new_format_equivalent "Tromso" "Norway" 69 18 "a@bc.de" none (kpApi 6)
    (by norm_num) (by norm_num) (by norm_num) (by norm_num)
